import Mathlib

/-!
Verification of the decision-support engine of a predictive-maintenance
system: criticality evaluation, incident lifecycle and SLA deadlines,
technician scoring and auto-assignment, failure time-to-failure
estimation, and telemetry trend/anomaly analytics.

All numeric computation in the source is Python float arithmetic over
decimal constants; it is embedded here over the rationals, which is exact
for every constant and operation appearing in the modelled functions
(sums, products, divisions and comparisons of decimal fractions).
Square roots (standard deviations) never need to be materialised: every
comparison the source makes against a standard deviation is of the form
|x - mean| / std > c under a guard std > 0, which is equivalent to
(x - mean)^2 > c^2 * variance; the embedding uses that squared form and
carries the sample variance (the square of the pandas std) instead of the
std itself.
-/

namespace PdM

/-! ## Criticality evaluator

From app/services/advanced_predictive_maintenance.py, method
assess_criticality (underscore-prefixed in the source).  The method reads
equipment_data.get("criticality", "medium") and an operating_hours field
that it never uses; the criticality string is taken here as a direct
input.  The local variable criticality_score is exposed as a definition
of its own so that theorems can speak about the score as well as the
returned tier. -/

/-- The criticality score computed by the source:
failure_probability * 0.4 + anomaly_score * 0.3 + weight * 0.3, where the
weight is 1 if the equipment criticality string equals "high" and 0.5
otherwise. -/
def assess_criticality_score (failure_probability anomaly_score : ℚ)
    (equipment_criticality : String) : ℚ :=
  failure_probability * (2/5) +
  anomaly_score * (3/10) +
  (if equipment_criticality = "high" then (1 : ℚ) else 1/2) * (3/10)

/-- The tier returned by the source method: thresholds 0.8 / 0.6 / 0.4 on
the criticality score. -/
def assess_criticality (failure_probability anomaly_score : ℚ)
    (equipment_criticality : String) : String :=
  let criticality_score :=
    assess_criticality_score failure_probability anomaly_score equipment_criticality
  if criticality_score ≥ 4/5 then "critical"
  else if criticality_score ≥ 3/5 then "high"
  else if criticality_score ≥ 2/5 then "medium"
  else "low"

/-- Following the words of the specification (not the source), for
comparison with `assess_criticality`: criticality_weight maps critical to
1.0, high to 0.75, medium to 0.5 and low to 0.25. -/
def spec_criticality_weight (tier : String) : ℚ :=
  if tier = "critical" then 1
  else if tier = "high" then 3/4
  else if tier = "medium" then 1/2
  else 1/4

/-- Following the words of the specification (not the source), for
comparison with `assess_criticality`. -/
def spec_assess_criticality (failure_probability anomaly_score : ℚ)
    (equipment_criticality : String) : String :=
  let score :=
    failure_probability * (2/5) + anomaly_score * (3/10) +
      spec_criticality_weight equipment_criticality * (3/10)
  if score ≥ 4/5 then "critical"
  else if score ≥ 3/5 then "high"
  else if score ≥ 2/5 then "medium"
  else "low"

/-! ## Incident lifecycle and SLA deadlines

From app/services/intelligent_incident_management.py (the Incident
dataclass, IncidentStatus and IncidentPriority enums, and the
update_incident_status method) and app/services/incident_management.py
(the sla_hours table and calculate_sla_deadline, underscore-prefixed in
the source).  Timestamps are modelled as rational numbers measured in
hours, so timedelta(hours = h) is addition of h. -/

inductive IncidentStatus where
  | pending
  | in_progress
  | completed
  | cancelled
  | escalated
deriving DecidableEq, Repr

inductive IncidentPriority where
  | low
  | medium
  | high
  | critical
deriving DecidableEq, Repr

/-- One row of the incidents table, carrying the union of the columns the
modelled operations read or write. -/
structure IncidentRow where
  id : String
  title : String
  description : String
  equipment_id : String
  location : String
  priority : IncidentPriority
  status : IncidentStatus
  created_by : String
  assigned_technician : Option String
  created_at : ℚ
  updated_at : ℚ
  sla_deadline : ℚ
  estimated_duration : Option ℕ
  actual_duration : Option ℕ
  resolution_notes : Option String
deriving DecidableEq, Repr

/-- The SLA hour table of IncidentManagementService: critical 4, high 8,
medium 24, low 72.  The source looks the priority up with a default of
24, which is unreachable because the enumeration is closed. -/
def sla_hours : IncidentPriority → ℕ
  | .critical => 4
  | .high => 8
  | .medium => 24
  | .low => 72

/-- calculate_sla_deadline (underscore-prefixed in the source):
created_at + timedelta(hours = sla_hours[priority]). -/
def calculate_sla_deadline (priority : IncidentPriority) (created_at : ℚ) : ℚ :=
  created_at + (sla_hours priority : ℚ)

/-- update_incident_status of IntelligentIncidentManager.  The source
runs a single SQL UPDATE setting status, updated_at, resolution_notes and
actual_duration, with no guard on the current status or on the assigned
technician, and returns a dict whose success field is True on the
non-exceptional path (database exceptions are outside this model).  The
Bool component models that success field; the row component is the
updated row. -/
def update_incident_status (row : IncidentRow) (new_status : IncidentStatus)
    (notes : Option String) (actual_duration : Option ℕ) (now : ℚ) :
    Bool × IncidentRow :=
  (true,
    { row with
      status := new_status
      updated_at := now
      resolution_notes := notes
      actual_duration := actual_duration })

/-- A concrete pending incident with no assigned technician, used to
exercise the state machine. -/
def pending_unassigned : IncidentRow :=
  { id := "inc-0001"
    title := "Vibration above limit"
    description := "High vibration on mill 3"
    equipment_id := "eq-77"
    location := "Planta Lima"
    priority := .high
    status := .pending
    created_by := "operator-9"
    assigned_technician := none
    created_at := 0
    updated_at := 0
    sla_deadline := 8
    estimated_duration := some 120
    actual_duration := none
    resolution_notes := none }

/-! ## Failure time-to-failure estimators

Two estimators exist in the source.  estimate_days_until_failure
(underscore-prefixed, app/services/ml_models.py) maps probability
thresholds 0.9 / 0.8 / 0.7 / 0.6 to 1 / 3 / 7 / 14 / 30 days.
estimate_failure_date (underscore-prefixed,
app/services/predictive_maintenance.py) uses thresholds
0.8 / 0.6 / 0.4 / 0.2; the source formats now + timedelta(days = d) as a
date string, and the embedding models the day offset d. -/

def estimate_days_until_failure (probability : ℚ) : ℕ :=
  if probability > 9/10 then 1
  else if probability > 4/5 then 3
  else if probability > 7/10 then 7
  else if probability > 3/5 then 14
  else 30

def estimate_failure_date_days (failure_probability : ℚ) : ℕ :=
  if failure_probability > 4/5 then 1
  else if failure_probability > 3/5 then 3
  else if failure_probability > 2/5 then 7
  else if failure_probability > 1/5 then 14
  else 30

/-! ## Technician scoring and auto-assignment

From app/services/technician_recommendation.py
(TechnicianRecommendationSystem) and the auto_assign_technician method
(underscore-prefixed) of IntelligentIncidentManager.  The technician pool
is the result of the availability SQL query of the source and is taken
here as an input list; the per-technician performance metrics, which the
source fetches from the incident history by technician id, travel as an
optional row on the technician value (none models an empty query result,
a some row with optional fields models a row whose aggregates may be SQL
NULL). -/

/-- One aggregate row of the performance-history query: completion rate,
average resolution time in hours, count of resolved critical incidents.
Each field is optional because the SQL aggregates can be NULL. -/
structure PerformanceRow where
  completion_rate : Option ℚ
  avg_resolution_time : Option ℚ
  critical_resolved : Option ℕ
deriving DecidableEq, Repr

structure Technician where
  id : String
  name : String
  specialty : String
  experience_years : ℕ
  location : String
  skill_level : String
  current_workload : ℕ
  performance : Option PerformanceRow
deriving DecidableEq, Repr

/-- The fields of the incident dict that the scorer reads:
equipment_type, failure_type, location and priority. -/
structure IncidentData where
  equipment_type : String
  failure_type : String
  location : String
  priority : String
deriving DecidableEq, Repr

/-- Python coalescing `x or d` on an optional number: None and 0 are both
falsy, so either yields the default. -/
def py_or_q (x : Option ℚ) (d : ℚ) : ℚ :=
  match x with
  | none => d
  | some v => if v = 0 then d else v

/-- Python coalescing `x or d` on an optional count, as a rational. -/
def py_or_n (x : Option ℕ) (d : ℚ) : ℚ :=
  match x with
  | none => d
  | some v => if (v : ℚ) = 0 then d else (v : ℚ)

/-- Python str.lower(), character by character. -/
def py_lower (s : String) : String :=
  ⟨s.data.map Char.toLower⟩

/-- The specialty-to-equipment table of calculate_specialty_match. -/
def specialty_equipment_map (specialty : String) : List String :=
  if specialty = "mecanico" then ["motor", "bomba", "compresor", "generador"]
  else if specialty = "electrico" then ["motor", "generador", "transformador", "panel"]
  else if specialty = "electronico" then ["sensor", "controlador", "plc", "hmi"]
  else if specialty = "hidraulico" then ["bomba", "valvula", "cilindro", "actuador"]
  else if specialty = "neumatico" then ["compresor", "valvula", "cilindro", "actuador"]
  else []

/-- The failure-to-specialties table of calculate_specialty_match; none
models a failure type absent from the Python dict. -/
def failure_specialty_map (failure : String) : Option (List String) :=
  if failure = "mecanica" then some ["mecanico"]
  else if failure = "electrica" then some ["electrico", "electronico"]
  else if failure = "hidraulica" then some ["hidraulico", "mecanico"]
  else if failure = "neumatica" then some ["neumatico", "mecanico"]
  else if failure = "vibracion" then some ["mecanico", "electrico"]
  else if failure = "temperatura" then some ["mecanico", "electrico"]
  else none

/-- calculate_specialty_match (underscore-prefixed in the source): 0.5
when the lowercased equipment type appears in the table entry for the
lowercased technician specialty, plus 0.5 when the lowercased failure
type is a key of the failure table and the specialty appears under it. -/
def calculate_specialty_match (technician_specialty equipment_type failure_type : String) : ℚ :=
  (if py_lower equipment_type ∈ specialty_equipment_map (py_lower technician_specialty)
    then (1 : ℚ)/2 else 0) +
  (match failure_specialty_map (py_lower failure_type) with
    | some specs => if py_lower technician_specialty ∈ specs then (1 : ℚ)/2 else 0
    | none => 0)

/-- calculate_experience_score (underscore-prefixed in the source):
min(years / 10, 1) times the skill-level multiplier (default 0.8 for an
unknown level) times the priority multiplier (default 1.0), with no
final cap. -/
def calculate_experience_score (experience_years : ℕ) (skill_level priority : String) : ℚ :=
  let years_score := min ((experience_years : ℚ) / 10) 1
  let skill_multiplier :=
    if py_lower skill_level = "junior" then (3 : ℚ)/5
    else if py_lower skill_level = "intermediate" then 4/5
    else if py_lower skill_level = "senior" then 1
    else if py_lower skill_level = "expert" then 6/5
    else 4/5
  let priority_multiplier :=
    if py_lower priority = "low" then (4 : ℚ)/5
    else if py_lower priority = "medium" then 1
    else if py_lower priority = "high" then 6/5
    else if py_lower priority = "critical" then 7/5
    else 1
  years_score * skill_multiplier * priority_multiplier

/-- calculate_workload_score (underscore-prefixed in the source). -/
def calculate_workload_score (current_workload : ℕ) : ℚ :=
  if current_workload = 0 then 1
  else if current_workload ≤ 2 then 4/5
  else if current_workload ≤ 4 then 3/5
  else 2/5

/-- Whether the character list w occurs as a contiguous segment starting
at the head of s (Python startswith on the remaining text). -/
def starts_with_chars : List Char → List Char → Bool
  | _, [] => true
  | [], _ :: _ => false
  | c :: cs, d :: ds => c == d && starts_with_chars cs ds

/-- Whether the character list w occurs contiguously anywhere in s
(Python membership test `w in s` on strings). -/
def has_segment : List Char → List Char → Bool
  | [], w => starts_with_chars [] w
  | c :: rest, w => starts_with_chars (c :: rest) w || has_segment rest w

/-- Python substring containment `w in s`. -/
def str_contains (s w : String) : Bool :=
  has_segment s.toList w.toList

/-- Worker for `py_split`: walk the characters, collecting the current
word in reverse; a whitespace character closes the word (empty words are
dropped, as Python split with no argument does). -/
def split_ws_go : List Char → List Char → List String
  | [], acc => if acc.isEmpty then [] else [⟨acc.reverse⟩]
  | c :: rest, acc =>
    if c.isWhitespace then
      (if acc.isEmpty then [] else [(⟨acc.reverse⟩ : String)]) ++ split_ws_go rest []
    else
      split_ws_go rest (c :: acc)

/-- Python str.split() with no argument: split on whitespace runs,
dropping empty pieces. -/
def py_split (s : String) : List String :=
  split_ws_go s.data []

/-- calculate_location_score (underscore-prefixed in the source): 0.5
when either location string is empty (falsy), 1.0 on a lowercased exact
match, 0.8 when any whitespace-separated word of the incident location
occurs inside the technician location, else 0.6. -/
def calculate_location_score (tech_location incident_location : String) : ℚ :=
  if tech_location = "" ∨ incident_location = "" then 1/2
  else if py_lower tech_location = py_lower incident_location then 1
  else if (py_split (py_lower incident_location)).any
      (fun word => str_contains (py_lower tech_location) word) then 4/5
  else 3/5

/-- calculate_performance_score (underscore-prefixed in the source): 0.5
when the history query returns no row; otherwise a blend of the
completion rate (NULL or 0 coalesced to 0), an inverse of the average
resolution time normalised to 48 hours (NULL or 0 coalesced to 24), and
the count of resolved critical incidents normalised to 5 (NULL or 0
coalesced to 0), weighted 0.5 / 0.3 / 0.2. -/
def calculate_performance_score (row : Option PerformanceRow) : ℚ :=
  match row with
  | none => 1/2
  | some r =>
    let completion_rate := py_or_q r.completion_rate 0
    let avg_time := py_or_q r.avg_resolution_time 24
    let critical_resolved := py_or_n r.critical_resolved 0
    let completion_score := completion_rate
    let time_score := max 0 (1 - avg_time / 48)
    let critical_score := min (critical_resolved / 5) 1
    completion_score * (1/2) + time_score * (3/10) + critical_score * (1/5)

/-- calculate_technician_score (underscore-prefixed in the source): the
weighted sum of the five component scores, clamped above at 1 by
min(score, 1.0). -/
def calculate_technician_score (t : Technician) (incident : IncidentData) : ℚ :=
  let specialty_score :=
    calculate_specialty_match t.specialty incident.equipment_type incident.failure_type
  let experience_score :=
    calculate_experience_score t.experience_years t.skill_level incident.priority
  let workload_score := calculate_workload_score t.current_workload
  let location_score := calculate_location_score t.location incident.location
  let performance_score := calculate_performance_score t.performance
  let score :=
    specialty_score * (2/5) + experience_score * (1/4) + workload_score * (1/5) +
      location_score * (1/10) + performance_score * (1/20)
  min score 1

/-- A technician together with the score assigned to it for one incident.
The source also attaches a list of human-readable reasons, which no
modelled property reads; it is omitted. -/
structure ScoredTechnician where
  technician : Technician
  score : ℚ
deriving DecidableEq, Repr

/-- get_technician_recommendations: an empty availability pool yields the
empty list; otherwise every technician in the pool is scored, the list is
sorted by score in descending order (Python stable sort with
reverse=True) and the first `limit` entries are returned. -/
def get_technician_recommendations (pool : List Technician)
    (incident : IncidentData) (limit : ℕ) : List ScoredTechnician :=
  if pool.isEmpty then []
  else
    let scored := pool.map (fun t => ⟨t, calculate_technician_score t incident⟩)
    (scored.mergeSort (fun a b => decide (b.score ≤ a.score))).take limit

/-- auto_assign_technician (underscore-prefixed in the source): asks for
the top 3 recommendations and takes the first; none models the
`success: False, message: "No hay tecnicos disponibles"` result the
source returns when the recommendation list is empty. -/
def auto_assign_technician (pool : List Technician) (incident : IncidentData) :
    Option ScoredTechnician :=
  (get_technician_recommendations pool incident 3).head?

/-! ## Telemetry analytics

From app/services/predictive_maintenance.py: calculate_trend,
calculate_sensor_metrics, calculate_health_score and
generate_health_recommendations (all underscore-prefixed in the source).
A raw channel is a list of optional rationals; none models a null (NaN)
cell, and pandas dropna is List.filterMap id. -/

/-- Arithmetic mean of a list of rationals (pandas mean). -/
def sample_mean (values : List ℚ) : ℚ :=
  values.sum / (values.length : ℚ)

/-- Sample variance with denominator n - 1 (the square of the pandas std,
which uses ddof = 1).  For a single point the pandas std is NaN, which
compares False against every threshold; here the division by zero yields
0, which fails the same strict positivity guards, so the guarded code
paths agree. -/
def sample_variance (values : List ℚ) : ℚ :=
  (values.map (fun x => (x - sample_mean values) ^ 2)).sum / ((values.length : ℚ) - 1)

/-- Minimum of a list (pandas min; 0 on the empty list, which the source
never queries). -/
def list_min : List ℚ → ℚ
  | [] => 0
  | h :: t => t.foldl min h

/-- Maximum of a list (pandas max; 0 on the empty list, which the source
never queries). -/
def list_max : List ℚ → ℚ
  | [] => 0
  | h :: t => t.foldl max h

/-- The slope of the degree-1 least-squares fit of the values against the
index 0, 1, ..., n-1: the closed form
(n * Σ x y - Σ x * Σ y) / (n * Σ x^2 - (Σ x)^2) of np.polyfit(x, y, 1)[0],
whose denominator is positive whenever n ≥ 2. -/
def linear_fit_slope (values : List ℚ) : ℚ :=
  let n : ℚ := values.length
  let xs := (List.range values.length).map (fun i => (i : ℚ))
  let sx := xs.sum
  let sy := values.sum
  let sxy := ((xs.zip values).map (fun p => p.1 * p.2)).sum
  let sxx := (xs.map (fun x => x * x)).sum
  (n * sxy - sx * sy) / (n * sxx - sx * sx)

/-- calculate_trend: "stable" for fewer than 2 points, otherwise the sign
of the fitted slope against the threshold 0.1 (strict on both sides). -/
def calculate_trend (values : List ℚ) : String :=
  if values.length < 2 then "stable"
  else
    let slope := linear_fit_slope values
    if slope > 1/10 then "increasing"
    else if slope < -(1/10) then "decreasing"
    else "stable"

/-- The per-channel dict built by calculate_sensor_metrics.  The source
stores std; the embedding stores its square (`variance`), see the file
header. -/
structure SensorMetric where
  current : ℚ
  average : ℚ
  min : ℚ
  max : ℚ
  variance : ℚ
  trend : String
deriving DecidableEq, Repr

/-- The body of the per-column loop of calculate_sensor_metrics: drop the
nulls; when no value remains the column is silently omitted from the
metrics dict (none), otherwise report last value, mean, min, max,
dispersion and the trend classification. -/
def calculate_sensor_metrics_channel (raw : List (Option ℚ)) : Option SensorMetric :=
  match raw.filterMap id with
  | [] => none
  | h :: t =>
    some
      { current := (h :: t).getLast (List.cons_ne_nil h t)
        average := sample_mean (h :: t)
        min := list_min (h :: t)
        max := list_max (h :: t)
        variance := sample_variance (h :: t)
        trend := calculate_trend (h :: t) }

/-- The per-column penalty of calculate_health_score: under the guard
std > 0 (equivalently variance > 0), count the points whose z-score
exceeds 2.5 — embedded as (x - mean)^2 > 2.5^2 * variance, exact because
the guard makes the std positive — and subtract 20 times the anomaly
rate; a zero-variance or empty column contributes nothing. -/
def health_penalty_channel (raw : List (Option ℚ)) : ℚ :=
  let values := raw.filterMap id
  if values.isEmpty then 0
  else if sample_variance values > 0 then
    let anomaly_count :=
      (values.filter
        (fun x => decide ((x - sample_mean values) ^ 2 > (25/4) * sample_variance values))).length
    ((anomaly_count : ℚ) / (values.length : ℚ)) * 20
  else 0

/-- calculate_health_score: start from 100, subtract every channel
penalty, clamp into [0, 100]. -/
def calculate_health_score (channels : List (List (Option ℚ))) : ℚ :=
  max 0 (min 100 (100 - (channels.map health_penalty_channel).sum))

/-- The per-column step of generate_health_recommendations: under the
guard std > 0, z-score the latest value; z > 3 yields the critical-value
message, z > 2 the anomalous-value message (embedded via squared
comparisons as above, and the formatted message text is modelled by its
category tag); a zero-variance or empty column yields no
recommendation. -/
def health_recommendation_channel (raw : List (Option ℚ)) : Option String :=
  match raw.filterMap id with
  | [] => none
  | h :: t =>
    let current := (h :: t).getLast (List.cons_ne_nil h t)
    let mean := sample_mean (h :: t)
    let variance := sample_variance (h :: t)
    if variance > 0 then
      if (current - mean) ^ 2 > 9 * variance then some "critical_value"
      else if (current - mean) ^ 2 > 4 * variance then some "anomalous_value"
      else none
    else none

/-- A synthetic strictly increasing series of 24 values with common step
0.05, whose least-squares slope is exactly 0.05. -/
def series24 : List ℚ :=
  (List.range 24).map (fun i => (i : ℚ) / 20)

/-- A synthetic strictly increasing series of 24 values with common step
1, whose least-squares slope is exactly 1. -/
def series24_steep : List ℚ :=
  (List.range 24).map (fun i => (i : ℚ))

/-- A constant channel of ten readings, whose sample variance is zero. -/
def const_channel : List (Option ℚ) :=
  List.replicate 10 (some 3)

/-- A technician whose specialty matches nothing (specialty component 0)
and who is idle (workload component 1.0), with no performance history. -/
def tech_mismatch : Technician :=
  { id := "t1", name := "Ana", specialty := "otros", experience_years := 0,
    location := "", skill_level := "junior", current_workload := 0,
    performance := none }

/-- A concrete incident input for the scorer. -/
def incident_example : IncidentData :=
  { equipment_type := "motor", failure_type := "mecanica",
    location := "Lima", priority := "medium" }

/-- A technician maximising every scoring component: matching specialty,
10 years of experience at expert level, idle, exact location match, and
a perfect performance history. -/
def tech_max : Technician :=
  { id := "t2", name := "Max", specialty := "mecanico", experience_years := 10,
    location := "lima", skill_level := "expert", current_workload := 0,
    performance := some { completion_rate := some 1, avg_resolution_time := some 1,
                          critical_resolved := some 10 } }

/-- A critical incident input on which `tech_max` maximises the raw
weighted sum, exercising the final clamp at 1. -/
def incident_max : IncidentData :=
  { equipment_type := "motor", failure_type := "mecanica",
    location := "lima", priority := "critical" }

/-! ## Theorems -/

/-- C1 (counterexample): the criticality weight of the source is not the
claimed four-level map.  At failure probability 0.5, anomaly score 0.5
and equipment criticality "critical" the source yields tier "medium"
(weight 0.5), while the claimed formula (weight 1.0 for "critical")
yields tier "high"; and at the claimed example (high, 0.72, 0.55) the
source score is 0.753, not the claimed 0.678. -/
theorem c1_criticality_counterexample :
    assess_criticality (1/2) (1/2) "critical" = "medium" ∧
    spec_assess_criticality (1/2) (1/2) "critical" = "high" ∧
    "medium" ≠ "high" ∧
    assess_criticality_score (18/25) (11/20) "high" = 753/1000 ∧
    (753 : ℚ)/1000 ≠ 678/1000 :=
  ⟨by norm_num [assess_criticality, assess_criticality_score,
      show (("critical" : String) = "high") = False from by simp],
    by norm_num [spec_assess_criticality, spec_criticality_weight],
    by decide,
    by norm_num [assess_criticality_score],
    by norm_num⟩

/-- C1 (amended): the criticality score is
0.4 * failure_probability + 0.3 * anomaly_score + 0.3 * w with
w = 1.0 when the equipment criticality is "high" and w = 0.5 otherwise
(including "critical"); the tier is critical iff score ≥ 0.8, high iff
0.6 ≤ score < 0.8, medium iff 0.4 ≤ score < 0.6, and low otherwise; the
example (high, 0.72, 0.55) scores 0.753 and yields tier high. -/
theorem assess_criticality_spec (fp a : ℚ) (t : String) :
    assess_criticality_score fp a t =
      fp * (2/5) + a * (3/10) + (if t = "high" then (1 : ℚ) else 1/2) * (3/10) ∧
    (assess_criticality fp a t = "critical" ↔ assess_criticality_score fp a t ≥ 4/5) ∧
    (assess_criticality fp a t = "high" ↔
      3/5 ≤ assess_criticality_score fp a t ∧ assess_criticality_score fp a t < 4/5) ∧
    (assess_criticality fp a t = "medium" ↔
      2/5 ≤ assess_criticality_score fp a t ∧ assess_criticality_score fp a t < 3/5) ∧
    (assess_criticality fp a t = "low" ↔ assess_criticality_score fp a t < 2/5) := by
  refine ⟨rfl, ?_⟩
  simp only [assess_criticality]
  set s := assess_criticality_score fp a t with hs
  split_ifs with h1 h2 h3
  · exact ⟨iff_of_true rfl h1,
      iff_of_false (by decide) (by rintro ⟨-, hlt⟩; exact absurd h1 (not_le.mpr hlt)),
      iff_of_false (by decide) (by rintro ⟨-, hlt⟩; rw [ge_iff_le] at h1; linarith),
      iff_of_false (by decide) (by intro hlt; rw [ge_iff_le] at h1; linarith)⟩
  · exact ⟨iff_of_false (by decide) h1,
      iff_of_true rfl ⟨h2, lt_of_not_ge h1⟩,
      iff_of_false (by decide) (by rintro ⟨-, hlt⟩; exact absurd h2 (not_le.mpr hlt)),
      iff_of_false (by decide) (by intro hlt; rw [ge_iff_le] at h2; linarith)⟩
  · exact ⟨iff_of_false (by decide) h1,
      iff_of_false (by decide) (by rintro ⟨hge, -⟩; exact h2 hge),
      iff_of_true rfl ⟨h3, lt_of_not_ge h2⟩,
      iff_of_false (by decide) (by intro hlt; rw [ge_iff_le] at h3; linarith)⟩
  · exact ⟨iff_of_false (by decide) h1,
      iff_of_false (by decide) (by rintro ⟨hge, -⟩; exact h2 hge),
      iff_of_false (by decide) (by rintro ⟨hge, -⟩; exact h3 hge),
      iff_of_true rfl (lt_of_not_ge h3)⟩

/-- C1 (witness): the amended tier characterisation instantiated at the
example of the specification, whose source score is 0.753. -/
theorem assess_criticality_spec_witness :
    assess_criticality (18/25) (11/20) "high" = "high" :=
  ((assess_criticality_spec (18/25) (11/20) "high").2.2.1).mpr
    (by norm_num [assess_criticality_score])

/-- C2 (counterexample): a single status update moves a pending incident
with no assigned technician directly to completed, and reports
success. -/
theorem c2_pending_to_completed_counterexample :
    pending_unassigned.status = .pending ∧
    pending_unassigned.assigned_technician = none ∧
    (update_incident_status pending_unassigned .completed
        (some "replaced bearing") (some 90) 5).1 = true ∧
    (update_incident_status pending_unassigned .completed
        (some "replaced bearing") (some 90) 5).2.status = .completed :=
  ⟨rfl, rfl, rfl, rfl⟩

/-- C2 (amended): update_incident_status performs no transition
validation at all: whatever the current status and the (possibly null)
assigned technician, any requested status — including completed — is
written and the call reports success; no invalid-transition error
exists. -/
theorem update_incident_status_unguarded (row : IncidentRow)
    (new_status : IncidentStatus) (notes : Option String)
    (actual_duration : Option ℕ) (now : ℚ) :
    (update_incident_status row new_status notes actual_duration now).1 = true ∧
    (update_incident_status row new_status notes actual_duration now).2.status = new_status ∧
    (update_incident_status row new_status notes actual_duration now).2.assigned_technician =
      row.assigned_technician :=
  ⟨rfl, rfl, rfl⟩

/-- C3: the SLA deadline is exactly the creation time plus the priority
hour count (critical 4, high 8, medium 24, low 72), and a status update
leaves the deadline, the priority and the creation time of the row
untouched. -/
theorem sla_deadline_spec (p : IncidentPriority) (T : ℚ) (row : IncidentRow)
    (new_status : IncidentStatus) (notes : Option String)
    (actual_duration : Option ℕ) (now : ℚ) :
    calculate_sla_deadline p T = T + (sla_hours p : ℚ) ∧
    sla_hours .critical = 4 ∧ sla_hours .high = 8 ∧
    sla_hours .medium = 24 ∧ sla_hours .low = 72 ∧
    (update_incident_status row new_status notes actual_duration now).2.sla_deadline =
      row.sla_deadline ∧
    (update_incident_status row new_status notes actual_duration now).2.priority =
      row.priority ∧
    (update_incident_status row new_status notes actual_duration now).2.created_at =
      row.created_at :=
  ⟨rfl, rfl, rfl, rfl, rfl, rfl, rfl, rfl⟩

/-- The case table of estimate_days_until_failure, matching the claimed
breakpoints 0.9 / 0.8 / 0.7 / 0.6. -/
theorem days_until_failure_cases (p : ℚ) :
    (9/10 < p → estimate_days_until_failure p = 1) ∧
    (4/5 < p ∧ p ≤ 9/10 → estimate_days_until_failure p = 3) ∧
    (7/10 < p ∧ p ≤ 4/5 → estimate_days_until_failure p = 7) ∧
    (3/5 < p ∧ p ≤ 7/10 → estimate_days_until_failure p = 14) ∧
    (p ≤ 3/5 → estimate_days_until_failure p = 30) := by
  unfold estimate_days_until_failure
  split_ifs with h1 h2 h3 h4 <;>
    refine ⟨?_, ?_, ?_, ?_, ?_⟩ <;>
    (intro h; first
      | rfl
      | (exfalso; obtain ⟨ha, hb⟩ := h; linarith)
      | (exfalso; linarith))

/-- The case table of estimate_failure_date_days, with the breakpoints
0.8 / 0.6 / 0.4 / 0.2 actually present in the source. -/
theorem failure_date_days_cases (p : ℚ) :
    (4/5 < p → estimate_failure_date_days p = 1) ∧
    (3/5 < p ∧ p ≤ 4/5 → estimate_failure_date_days p = 3) ∧
    (2/5 < p ∧ p ≤ 3/5 → estimate_failure_date_days p = 7) ∧
    (1/5 < p ∧ p ≤ 2/5 → estimate_failure_date_days p = 14) ∧
    (p ≤ 1/5 → estimate_failure_date_days p = 30) := by
  unfold estimate_failure_date_days
  split_ifs with h1 h2 h3 h4 <;>
    refine ⟨?_, ?_, ?_, ?_, ?_⟩ <;>
    (intro h; first
      | rfl
      | (exfalso; obtain ⟨ha, hb⟩ := h; linarith)
      | (exfalso; linarith))

/-- estimate_days_until_failure is antitone in the probability. -/
theorem days_until_failure_antitone {p q : ℚ} (hpq : p ≤ q) :
    estimate_days_until_failure q ≤ estimate_days_until_failure p := by
  unfold estimate_days_until_failure
  split_ifs <;> first | omega | (exfalso; linarith)

/-- estimate_failure_date_days is antitone in the probability. -/
theorem failure_date_days_antitone {p q : ℚ} (hpq : p ≤ q) :
    estimate_failure_date_days q ≤ estimate_failure_date_days p := by
  unfold estimate_failure_date_days
  split_ifs <;> first | omega | (exfalso; linarith)

/-- C6 (counterexample): at probability 0.85 — inside the claimed
interval 0.8 < p ≤ 0.9 that is said to give 3 days — the failure-date
estimator of the predictive-maintenance service gives 1 day. -/
theorem c6_failure_date_counterexample :
    (4 : ℚ)/5 < 17/20 ∧ (17 : ℚ)/20 ≤ 9/10 ∧
    estimate_failure_date_days (17/20) = 1 ∧ (1 : ℕ) ≠ 3 :=
  ⟨by norm_num, by norm_num, by norm_num [estimate_failure_date_days], by decide⟩

/-- C6 (amended): the repository has two time-to-failure step functions.
The ml_models estimator follows exactly the claimed table
(> 0.9 → 1, > 0.8 → 3, > 0.7 → 7, > 0.6 → 14, else 30); the
predictive-maintenance failure-date estimator instead uses the
breakpoints > 0.8 → 1, > 0.6 → 3, > 0.4 → 7, > 0.2 → 14, else 30.  Both
are monotonically decreasing step functions of the probability. -/
theorem failure_eta_spec (p q : ℚ) (hpq : p ≤ q) :
    (9/10 < p → estimate_days_until_failure p = 1) ∧
    (4/5 < p ∧ p ≤ 9/10 → estimate_days_until_failure p = 3) ∧
    (7/10 < p ∧ p ≤ 4/5 → estimate_days_until_failure p = 7) ∧
    (3/5 < p ∧ p ≤ 7/10 → estimate_days_until_failure p = 14) ∧
    (p ≤ 3/5 → estimate_days_until_failure p = 30) ∧
    (4/5 < p → estimate_failure_date_days p = 1) ∧
    (3/5 < p ∧ p ≤ 4/5 → estimate_failure_date_days p = 3) ∧
    (2/5 < p ∧ p ≤ 3/5 → estimate_failure_date_days p = 7) ∧
    (1/5 < p ∧ p ≤ 2/5 → estimate_failure_date_days p = 14) ∧
    (p ≤ 1/5 → estimate_failure_date_days p = 30) ∧
    estimate_days_until_failure q ≤ estimate_days_until_failure p ∧
    estimate_failure_date_days q ≤ estimate_failure_date_days p :=
  ⟨(days_until_failure_cases p).1, (days_until_failure_cases p).2.1,
    (days_until_failure_cases p).2.2.1, (days_until_failure_cases p).2.2.2.1,
    (days_until_failure_cases p).2.2.2.2,
    (failure_date_days_cases p).1, (failure_date_days_cases p).2.1,
    (failure_date_days_cases p).2.2.1, (failure_date_days_cases p).2.2.2.1,
    (failure_date_days_cases p).2.2.2.2,
    days_until_failure_antitone hpq, failure_date_days_antitone hpq⟩

/-- C6 (witness): both estimators evaluated through the amended theorem
at probabilities 0.95 and 0.85. -/
theorem failure_eta_spec_witness :
    estimate_days_until_failure (19/20) = 1 ∧
    estimate_failure_date_days (17/20) = 1 :=
  ⟨(failure_eta_spec (19/20) (19/20) le_rfl).1 (by norm_num),
    (failure_eta_spec (17/20) (17/20) le_rfl).2.2.2.2.2.1 (by norm_num)⟩

/-- C7 (counterexample): a strictly increasing synthetic series of 24
values with common step 0.05 has fitted slope 0.05 — at least the claimed
threshold 0.01 — yet the trend classifier returns "stable", because the
threshold actually present in the source is 0.1. -/
theorem c7_trend_counterexample :
    List.Pairwise (fun a b => a < b) series24 ∧
    series24.length = 24 ∧
    linear_fit_slope series24 = 1/20 ∧
    ((1 : ℚ)/100 ≤ 1/20) ∧
    calculate_trend series24 = "stable" ∧
    "stable" ≠ "increasing" :=
  ⟨by with_unfolding_all decide, by with_unfolding_all decide,
    by with_unfolding_all decide, by norm_num,
    by with_unfolding_all decide, by decide⟩

/-- C7 (amended): for a series of at least 2 points, the trend classifier
fits a first-degree polynomial over the reading index and returns
increasing exactly when the slope exceeds 0.1, decreasing exactly when it
is below -0.1, and stable exactly when -0.1 ≤ slope ≤ 0.1 (the threshold
is 0.1, not 0.01, and comparisons are strict); consequently a strictly
increasing 24-value series is classified increasing exactly when its
fitted slope exceeds 0.1. -/
theorem calculate_trend_spec (values : List ℚ) (h2 : 2 ≤ values.length) :
    (calculate_trend values = "increasing" ↔ linear_fit_slope values > 1/10) ∧
    (calculate_trend values = "decreasing" ↔ linear_fit_slope values < -(1/10)) ∧
    (calculate_trend values = "stable" ↔
      -(1/10) ≤ linear_fit_slope values ∧ linear_fit_slope values ≤ 1/10) := by
  simp only [calculate_trend]
  rw [if_neg (by omega)]
  split_ifs with ha hb
  · exact ⟨iff_of_true rfl ha,
      iff_of_false (by decide) (by intro hlt; linarith),
      iff_of_false (by decide) (by rintro ⟨-, hle⟩; linarith)⟩
  · exact ⟨iff_of_false (by decide) ha,
      iff_of_true rfl hb,
      iff_of_false (by decide) (by rintro ⟨hge, -⟩; linarith)⟩
  · exact ⟨iff_of_false (by decide) ha,
      iff_of_false (by decide) hb,
      iff_of_true rfl ⟨le_of_not_lt hb, le_of_not_lt ha⟩⟩

/-- C7 (witness): the 24-value strictly increasing series with common
step 1 has slope 1 > 0.1 and is classified increasing through the
amended theorem. -/
theorem calculate_trend_spec_witness :
    calculate_trend series24_steep = "increasing" :=
  (calculate_trend_spec series24_steep (by with_unfolding_all decide)).1.mpr
    (by with_unfolding_all decide)

/-- C8 (counterexample): the analyzer never returns an explicit
insufficient-data or no-data marker.  An empty or all-null channel is
silently omitted from the metrics (none), and a channel with exactly one
valid point is reported with the fabricated trend classification
"stable". -/
theorem c8_insufficient_data_counterexample :
    calculate_sensor_metrics_channel ([] : List (Option ℚ)) = none ∧
    calculate_sensor_metrics_channel [none, none] = none ∧
    (calculate_sensor_metrics_channel [some 5]).map SensorMetric.trend = some "stable" ∧
    "stable" ≠ "insufficient_data" ∧ "stable" ≠ "no_data" :=
  ⟨rfl, rfl, by with_unfolding_all decide, by decide, by decide⟩

/-- C8 (amended): for a channel with fewer than 2 valid points the
analyzer never crashes: a channel with no valid points is omitted from
the metrics dict, and a channel with exactly one valid point is reported
with trend "stable" rather than with an insufficient-data marker. -/
theorem sensor_metrics_insufficient (raw : List (Option ℚ)) (v : ℚ) :
    (raw.filterMap id = [] → calculate_sensor_metrics_channel raw = none) ∧
    (raw.filterMap id = [v] →
      (calculate_sensor_metrics_channel raw).map SensorMetric.trend = some "stable") := by
  constructor
  · intro h
    simp only [calculate_sensor_metrics_channel, h]
  · intro h
    simp only [calculate_sensor_metrics_channel, h]
    simp [calculate_trend]

/-- C8 (witness): the amended theorem instantiated at an all-null window
and at a single-reading window. -/
theorem sensor_metrics_insufficient_witness :
    calculate_sensor_metrics_channel [none] = none ∧
    (calculate_sensor_metrics_channel [some (7 : ℚ)]).map SensorMetric.trend = some "stable" :=
  ⟨(sensor_metrics_insufficient [none] 0).1 rfl,
    (sensor_metrics_insufficient [some 7] 7).2 rfl⟩

/-- Zero sample variance makes the health-score penalty of a channel
vanish: the guard std > 0 fails, so no z-score is formed. -/
theorem health_penalty_zero_var (raw : List (Option ℚ))
    (h : sample_variance (raw.filterMap id) = 0) :
    health_penalty_channel raw = 0 := by
  simp only [health_penalty_channel]
  split_ifs with h1 h2
  · rfl
  · rw [h] at h2
    exact absurd h2 (lt_irrefl 0)
  · rfl

/-- Zero sample variance suppresses the anomaly recommendation of a
channel: the guard std > 0 fails, so no z-score is formed. -/
theorem health_rec_zero_var (raw : List (Option ℚ))
    (h : sample_variance (raw.filterMap id) = 0) :
    health_recommendation_channel raw = none := by
  cases hv : raw.filterMap id with
  | nil => simp only [health_recommendation_channel, hv]
  | cons a t =>
    rw [hv] at h
    simp [health_recommendation_channel, hv, h]

/-- C9: a zero-variance channel is skipped by the z-score analysis — it
contributes no health-score penalty and no anomaly recommendation — and
a window in which every channel has zero variance keeps the health score
at exactly 100.  The division by the standard deviation sits under the
guard std > 0 (variance > 0 in the squared embedding), so no z-score is
ever formed for such channels. -/
theorem zero_variance_no_anomaly (raw : List (Option ℚ))
    (h : sample_variance (raw.filterMap id) = 0) :
    health_penalty_channel raw = 0 ∧
    health_recommendation_channel raw = none ∧
    ∀ channels : List (List (Option ℚ)),
      (∀ c ∈ channels, sample_variance (c.filterMap id) = 0) →
      calculate_health_score channels = 100 := by
  refine ⟨health_penalty_zero_var raw h, health_rec_zero_var raw h, ?_⟩
  intro channels hall
  have hsum : (channels.map health_penalty_channel).sum = 0 := by
    apply List.sum_eq_zero
    intro x hx
    obtain ⟨c, hc, rfl⟩ := List.mem_map.mp hx
    exact health_penalty_zero_var c (hall c hc)
  simp only [calculate_health_score, hsum]
  norm_num

/-- C9 (witness): the theorem instantiated at a constant ten-reading
channel and at a two-channel window of constant readings. -/
theorem zero_variance_no_anomaly_witness :
    health_penalty_channel const_channel = 0 ∧
    health_recommendation_channel const_channel = none ∧
    calculate_health_score [const_channel, const_channel] = 100 := by
  have h := zero_variance_no_anomaly const_channel (by with_unfolding_all decide)
  refine ⟨h.1, h.2.1, h.2.2 [const_channel, const_channel] ?_⟩
  intro c hc
  have hc2 : c = const_channel := by
    rcases List.mem_cons.mp hc with h1 | h2
    · exact h1
    · exact List.mem_singleton.mp h2
  rw [hc2]
  with_unfolding_all decide

/-- The specialty component is 0, 0.5 or 1, hence in [0, 1]. -/
theorem specialty_match_bounds (s e f : String) :
    0 ≤ calculate_specialty_match s e f ∧ calculate_specialty_match s e f ≤ 1 := by
  simp only [calculate_specialty_match]
  rcases hm : failure_specialty_map (py_lower f) with _ | specs <;>
    dsimp only <;> split_ifs <;> norm_num

/-- The workload component takes one of the values 1, 0.8, 0.6, 0.4. -/
theorem workload_bounds (w : ℕ) :
    0 ≤ calculate_workload_score w ∧ calculate_workload_score w ≤ 1 := by
  simp only [calculate_workload_score]
  split_ifs <;> norm_num

/-- The location component takes one of the values 0.5, 1, 0.8, 0.6. -/
theorem location_bounds (a b : String) :
    0 ≤ calculate_location_score a b ∧ calculate_location_score a b ≤ 1 := by
  simp only [calculate_location_score]
  split_ifs <;> norm_num

/-- The experience component is nonnegative and bounded by 1.68 = 42/25,
the product of the largest skill multiplier 1.2 and the largest priority
multiplier 1.4; it is not bounded by 1. -/
theorem experience_bounds (y : ℕ) (s p : String) :
    0 ≤ calculate_experience_score y s p ∧ calculate_experience_score y s p ≤ 42/25 := by
  have h0 : (0 : ℚ) ≤ min ((y : ℚ)/10) 1 := le_min (by positivity) (by norm_num)
  have h1 : min ((y : ℚ)/10) 1 ≤ 1 := min_le_right _ _
  simp only [calculate_experience_score]
  split_ifs <;> constructor <;> nlinarith [h0, h1]

/-- The performance component lies in [0, 1] whenever the completion
rate of a present history row lies in [0, 1] and its average resolution
time is nonnegative. -/
theorem performance_bounds (row : Option PerformanceRow)
    (hc : ∀ r, row = some r → ∀ c, r.completion_rate = some c → 0 ≤ c ∧ c ≤ 1)
    (ha : ∀ r, row = some r → ∀ a, r.avg_resolution_time = some a → 0 ≤ a) :
    0 ≤ calculate_performance_score row ∧ calculate_performance_score row ≤ 1 := by
  cases row with
  | none =>
    simp only [calculate_performance_score]
    norm_num
  | some r =>
    have hcr : 0 ≤ py_or_q r.completion_rate 0 ∧ py_or_q r.completion_rate 0 ≤ 1 := by
      cases hx : r.completion_rate with
      | none => simp [py_or_q]
      | some c =>
        have hcb := hc r rfl c hx
        simp only [py_or_q]
        split_ifs
        · norm_num
        · exact hcb
    have hat : 0 ≤ py_or_q r.avg_resolution_time 24 := by
      cases hx : r.avg_resolution_time with
      | none => norm_num [py_or_q]
      | some a =>
        have hab := ha r rfl a hx
        simp only [py_or_q]
        split_ifs
        · norm_num
        · exact hab
    have hts : 0 ≤ max 0 (1 - py_or_q r.avg_resolution_time 24 / 48) ∧
        max 0 (1 - py_or_q r.avg_resolution_time 24 / 48) ≤ 1 := by
      refine ⟨le_max_left _ _, max_le (by norm_num) ?_⟩
      have : 0 ≤ py_or_q r.avg_resolution_time 24 / 48 := by positivity
      linarith
    have hcs : 0 ≤ min (py_or_n r.critical_resolved 0 / 5) 1 ∧
        min (py_or_n r.critical_resolved 0 / 5) 1 ≤ 1 := by
      have hnn : 0 ≤ py_or_n r.critical_resolved 0 := by
        cases hx : r.critical_resolved with
        | none => norm_num [py_or_n]
        | some n =>
          simp only [py_or_n]
          split_ifs
          · norm_num
          · positivity
      exact ⟨le_min (by positivity) (by norm_num), min_le_right _ _⟩
    simp only [calculate_performance_score]
    constructor <;> linarith [hcr.1, hcr.2, hts.1, hts.2, hcs.1, hcs.2]

/-- The total score is definitionally the clamped weighted sum of the
five components. -/
theorem technician_score_eq (t : Technician) (incident : IncidentData) :
    calculate_technician_score t incident =
      min (calculate_specialty_match t.specialty incident.equipment_type incident.failure_type * (2/5) +
        calculate_experience_score t.experience_years t.skill_level incident.priority * (1/4) +
        calculate_workload_score t.current_workload * (1/5) +
        calculate_location_score t.location incident.location * (1/10) +
        calculate_performance_score t.performance * (1/20)) 1 := rfl

/-- C5 (counterexample): the experience component is not capped at 1.0.
At 10 years, expert skill and critical priority it evaluates to
1 * 1.2 * 1.4 = 1.68. -/
theorem c5_experience_uncapped_counterexample :
    calculate_experience_score 10 "expert" "critical" = 42/25 ∧
    ¬ (calculate_experience_score 10 "expert" "critical" ≤ 1) :=
  ⟨by with_unfolding_all decide, by with_unfolding_all decide⟩

/-- C5 (amended): the technician score is the weighted sum
specialty*0.4 + experience*0.25 + workload*0.2 + location*0.1 +
performance*0.05, where specialty, workload, location and performance
each lie in [0, 1] (performance under the natural hypotheses on its
history inputs), but the experience component is NOT capped at 1.0: it
is min(years/10, 1) times the skill multiplier times the priority
multiplier with no final cap, bounded only by 1.68; instead the total
weighted sum is clamped above at 1.0. -/
theorem technician_score_components (t : Technician) (incident : IncidentData)
    (hc : ∀ r, t.performance = some r → ∀ c, r.completion_rate = some c → 0 ≤ c ∧ c ≤ 1)
    (ha : ∀ r, t.performance = some r → ∀ a, r.avg_resolution_time = some a → 0 ≤ a) :
    (0 ≤ calculate_specialty_match t.specialty incident.equipment_type incident.failure_type ∧
      calculate_specialty_match t.specialty incident.equipment_type incident.failure_type ≤ 1) ∧
    (0 ≤ calculate_workload_score t.current_workload ∧
      calculate_workload_score t.current_workload ≤ 1) ∧
    (0 ≤ calculate_location_score t.location incident.location ∧
      calculate_location_score t.location incident.location ≤ 1) ∧
    (0 ≤ calculate_performance_score t.performance ∧
      calculate_performance_score t.performance ≤ 1) ∧
    (0 ≤ calculate_experience_score t.experience_years t.skill_level incident.priority ∧
      calculate_experience_score t.experience_years t.skill_level incident.priority ≤ 42/25) ∧
    calculate_technician_score t incident =
      min (calculate_specialty_match t.specialty incident.equipment_type incident.failure_type * (2/5) +
        calculate_experience_score t.experience_years t.skill_level incident.priority * (1/4) +
        calculate_workload_score t.current_workload * (1/5) +
        calculate_location_score t.location incident.location * (1/10) +
        calculate_performance_score t.performance * (1/20)) 1 :=
  ⟨specialty_match_bounds t.specialty incident.equipment_type incident.failure_type,
    workload_bounds t.current_workload,
    location_bounds t.location incident.location,
    performance_bounds t.performance hc ha,
    experience_bounds t.experience_years t.skill_level incident.priority,
    technician_score_eq t incident⟩

/-- C5 (witness): the amended theorem instantiated at a technician with
no performance history (the hypotheses hold vacuously). -/
theorem technician_score_components_witness :
    0 ≤ calculate_performance_score tech_mismatch.performance ∧
    calculate_performance_score tech_mismatch.performance ≤ 1 :=
  (technician_score_components tech_mismatch incident_example
    (by intro r hr; simp [tech_mismatch] at hr)
    (by intro r hr; simp [tech_mismatch] at hr)).2.2.2.1

/-- C10: the total compatibility score lies in [0, 1] for every
technician and incident (under the natural hypotheses on the performance
history inputs): the weighted sum is nonnegative and min(score, 1.0)
clamps it above. -/
theorem technician_score_unit_interval (t : Technician) (incident : IncidentData)
    (hc : ∀ r, t.performance = some r → ∀ c, r.completion_rate = some c → 0 ≤ c ∧ c ≤ 1)
    (ha : ∀ r, t.performance = some r → ∀ a, r.avg_resolution_time = some a → 0 ≤ a) :
    0 ≤ calculate_technician_score t incident ∧
    calculate_technician_score t incident ≤ 1 := by
  obtain ⟨hs1, hs2⟩ :=
    specialty_match_bounds t.specialty incident.equipment_type incident.failure_type
  obtain ⟨he1, he2⟩ :=
    experience_bounds t.experience_years t.skill_level incident.priority
  obtain ⟨hw1, hw2⟩ := workload_bounds t.current_workload
  obtain ⟨hl1, hl2⟩ := location_bounds t.location incident.location
  obtain ⟨hp1, hp2⟩ := performance_bounds t.performance hc ha
  rw [technician_score_eq]
  exact ⟨le_min (by linarith) (by norm_num), min_le_right _ _⟩

/-- C10 (witness): the theorem instantiated at a component-maximising
technician, whose raw weighted sum exceeds 1 and whose returned score is
exactly the clamp value 1. -/
theorem technician_score_unit_interval_witness :
    0 ≤ calculate_technician_score tech_max incident_max ∧
    calculate_technician_score tech_max incident_max ≤ 1 ∧
    calculate_technician_score tech_max incident_max = 1 := by
  have h := technician_score_unit_interval tech_max incident_max
    (by intro r hr c hcq
        simp only [tech_max, Option.some.injEq] at hr
        subst hr
        simp only [Option.some.injEq] at hcq
        subst hcq
        norm_num)
    (by intro r hr a haq
        simp only [tech_max, Option.some.injEq] at hr
        subst hr
        simp only [Option.some.injEq] at haq
        subst haq
        norm_num)
  exact ⟨h.1, h.2, by with_unfolding_all decide⟩

/-- C4: auto-assignment returns the no-eligible-technician result exactly
when the availability pool is empty; every selected candidate comes from
the pool, carries the score the scorer computes for it, and no pool
member scores strictly higher. -/
theorem auto_assign_spec (pool : List Technician) (incident : IncidentData) :
    (auto_assign_technician pool incident = none ↔ pool = []) ∧
    (∀ best, auto_assign_technician pool incident = some best →
      best.technician ∈ pool ∧
      best.score = calculate_technician_score best.technician incident ∧
      ∀ t ∈ pool, calculate_technician_score t incident ≤ best.score) := by
  simp only [auto_assign_technician, get_technician_recommendations]
  cases pool with
  | nil => simp
  | cons p ps =>
    simp only [List.isEmpty_cons, Bool.false_eq_true, if_false]
    have hperm :
        List.Perm
          (((p :: ps).map (fun t =>
              (⟨t, calculate_technician_score t incident⟩ : ScoredTechnician))).mergeSort
            (fun a b => decide (b.score ≤ a.score)))
          ((p :: ps).map (fun t =>
            (⟨t, calculate_technician_score t incident⟩ : ScoredTechnician))) :=
      List.mergeSort_perm _ _
    have hsorted :
        (((p :: ps).map (fun t =>
            (⟨t, calculate_technician_score t incident⟩ : ScoredTechnician))).mergeSort
            (fun a b => decide (b.score ≤ a.score))).Pairwise
          (fun a b => decide (b.score ≤ a.score) = true) := by
      apply List.sorted_mergeSort
      · intro a b c hab hbc
        simp only [decide_eq_true_eq] at *
        exact le_trans hbc hab
      · intro a b
        simp only [Bool.or_eq_true, decide_eq_true_eq]
        exact le_total b.score a.score
    obtain ⟨b, rest, hEq⟩ :
        ∃ b rest,
          ((p :: ps).map (fun t =>
              (⟨t, calculate_technician_score t incident⟩ : ScoredTechnician))).mergeSort
              (fun a b => decide (b.score ≤ a.score)) = b :: rest := by
      cases hms :
          ((p :: ps).map (fun t =>
              (⟨t, calculate_technician_score t incident⟩ : ScoredTechnician))).mergeSort
              (fun a b => decide (b.score ≤ a.score)) with
      | nil =>
        exfalso
        have hlen := hperm.length_eq
        rw [hms] at hlen
        simp at hlen
      | cons b rest => exact ⟨b, rest, rfl⟩
    rw [hEq]
    simp only [List.take_succ_cons, List.head?_cons]
    constructor
    · simp
    · intro best hbest
      have hb : b = best := by
        simpa using hbest
      subst hb
      have hbmem :
          b ∈ (p :: ps).map (fun t =>
            (⟨t, calculate_technician_score t incident⟩ : ScoredTechnician)) :=
        hperm.mem_iff.mp (hEq ▸ List.mem_cons_self b rest)
      obtain ⟨tb, htb_mem, htb_eq⟩ := List.mem_map.mp hbmem
      refine ⟨?_, ?_, ?_⟩
      · rw [← htb_eq]
        exact htb_mem
      · rw [← htb_eq]
      · intro t ht
        have htm :
            (⟨t, calculate_technician_score t incident⟩ : ScoredTechnician) ∈
              (p :: ps).map (fun t =>
                (⟨t, calculate_technician_score t incident⟩ : ScoredTechnician)) :=
          List.mem_map_of_mem _ ht
        have hin :
            (⟨t, calculate_technician_score t incident⟩ : ScoredTechnician) ∈ b :: rest := by
          rw [← hEq]
          exact List.mem_mergeSort.mpr htm
        rcases List.mem_cons.mp hin with heq | hmem
        · rw [← heq]
        · have hpair := (List.pairwise_cons.mp (hEq ▸ hsorted)).1 _ hmem
          simpa using hpair

/-- C4 (witness): a pool of one technician with specialty component 0 and
workload component 1.0 still yields a selection with that technician, and
through the theorem its score bounds every pool score. -/
theorem auto_assign_spec_witness :
    auto_assign_technician [tech_mismatch] incident_example ≠ none ∧
    ∀ best, auto_assign_technician [tech_mismatch] incident_example = some best →
      best.technician = tech_mismatch := by
  constructor
  · intro h
    have hnil := (auto_assign_spec [tech_mismatch] incident_example).1.mp h
    cases hnil
  · intro best hbest
    have hmem :=
      ((auto_assign_spec [tech_mismatch] incident_example).2 best hbest).1
    simpa using hmem

end PdM
